import Mathlib

/-!
Verification of the voice-chat relay (`voice-chat-poc`).

Shallow embedding of the subsystems named by the specification:

* `Codec` — the audio codec utility: `LivekitManager.floatTo16BitPCM` /
  `LivekitManager.int16ToFloat32` (`src/voice-chat-poc/src/livekit-manager.ts`,
  lines 273-291) modelled over `ℚ` (JavaScript numbers modelled as exact
  rationals), and the binary↔text transport encoding (`btoa` / `atob`,
  standard base64) used by `OpenAIManager.sendAudio` and
  `LivekitManager.playAudio`.
* `Relay` — the WebSocket proxy in `src/voice-chat-poc/server/test-token.js`
  (lines 113-227): one connection's state (`messageBuffer`, `sessionCreated`,
  the two sockets) and its seven event handlers.
* `RT` — `OpenAIManager.sendAudio` / `sendFunctionResult`
  (`src/unnamed/part_005`, an `openai-manager.ts` file), the function
  registry's `executeFunctionCall`
  (`src/voice-chat-poc/src/function-registry.ts`), and the `AudioBridge`
  function-call handler (`src/voice-chat-poc/src/audio-bridge.ts`).
* `Player` — the playback queue `LivekitManager.playAudio` /
  `playNextInQueue` (`livekit-manager.ts`, lines 205-268).
-/

/-- Equality of `Except` values is decidable componentwise; needed to
`decide` facts about `Relay.run` results. -/
instance {ε α : Type} [DecidableEq ε] [DecidableEq α] : DecidableEq (Except ε α) := fun a b =>
  match a, b with
  | .ok x, .ok y =>
      if h : x = y then .isTrue (congrArg Except.ok h)
      else .isFalse fun he => h (Except.ok.inj he)
  | .error x, .error y =>
      if h : x = y then .isTrue (congrArg Except.error h)
      else .isFalse fun he => h (Except.error.inj he)
  | .ok _, .error _ => .isFalse fun he => Except.noConfusion he
  | .error _, .ok _ => .isFalse fun he => Except.noConfusion he

namespace Codec

/-- Truncation toward zero, the conversion JavaScript applies when a
number is stored into an `Int16Array` element (all encoder outputs lie in
`[-32768, 32767]`, so the modular wrap of the conversion never acts). -/
def truncQ (q : ℚ) : ℤ := if q < 0 then ⌈q⌉ else ⌊q⌋

/-- The clamp `Math.max(-1, Math.min(1, float32Array[i]))` from
`floatTo16BitPCM` (livekit-manager.ts line 276). -/
def clamp (q : ℚ) : ℚ := max (-1) (min 1 q)

/-- One sample of `LivekitManager.floatTo16BitPCM` (livekit-manager.ts
line 277): `const s = Math.max(-1, Math.min(1, v)); s < 0 ? s * 0x8000 : s * 0x7fff`,
stored into an `Int16Array` (truncation toward zero). -/
def floatTo16BitPCMSample (v : ℚ) : ℤ :=
  let s := clamp v
  if s < 0 then truncQ (s * 32768) else truncQ (s * 32767)

/-- One sample of `LivekitManager.int16ToFloat32` (livekit-manager.ts
line 288): `int16Array[i] / (int16Array[i] < 0 ? 0x8000 : 0x7fff)`. -/
def int16ToFloat32Sample (n : ℤ) : ℚ :=
  if n < 0 then (n : ℚ) / 32768 else (n : ℚ) / 32767

/-- `LivekitManager.floatTo16BitPCM` on a whole sample sequence. -/
def floatTo16BitPCM (l : List ℚ) : List ℤ := l.map floatTo16BitPCMSample

/-- `LivekitManager.int16ToFloat32` on a whole sample sequence. -/
def int16ToFloat32 (l : List ℤ) : List ℚ := l.map int16ToFloat32Sample

/-- The quantization step the spec allows per sample: `1/32767` for
non-negative samples, `1/32768` for negative ones. -/
def quantStep (q : ℚ) : ℚ := if q < 0 then 1 / 32768 else 1 / 32767

/-- Modelled from the spec: `to_transport_text` / `from_transport_text` are
"standard base64"; the source calls the platform primitives `btoa`
(openai-manager `sendAudio`) and `atob` (livekit-manager `playAudio`),
whose implementation is not in the repository. The standard base64
alphabet, as character codes. -/
def b64Alphabet : List ℕ :=
  ("ABCDEFGHIJKLMNOPQRSTUVWXYZabcdefghijklmnopqrstuvwxyz0123456789+/").toList.map Char.toNat

/-- Character code of the base64 padding character. -/
def padCode : ℕ := 61

/-- Sextet stream of standard base64: each 3-byte group yields 4 sextets;
a trailing 1- or 2-byte group yields 2 or 3 sextets with zero-filled low
bits. Modelled from the spec: the content layer of "standard base64". -/
def encB64 : List ℕ → List ℕ
  | [] => []
  | [a] => [a / 4, a % 4 * 16]
  | [a, b] => [a / 4, a % 4 * 16 + b / 16, b % 16 * 4]
  | a :: b :: c :: rest =>
      a / 4 :: (a % 4 * 16 + b / 16) :: (b % 16 * 4 + c / 64) :: c % 64 :: encB64 rest

/-- Inverse of `encB64`: each 4-sextet group yields 3 bytes; a trailing
2- or 3-sextet group yields 1 or 2 bytes. Modelled from the spec: the
content layer of standard base64 decoding. -/
def decB64 : List ℕ → List ℕ
  | [] => []
  | [_] => []
  | [x, y] => [x * 4 + y / 16]
  | [x, y, z] => [x * 4 + y / 16, y % 16 * 16 + z / 4]
  | x :: y :: z :: w :: rest =>
      (x * 4 + y / 16) :: (y % 16 * 16 + z / 4) :: (z % 4 * 64 + w) :: decB64 rest

/-- Map a sextet to its alphabet character code. -/
def sextetToChar (s : ℕ) : ℕ := b64Alphabet.getD s padCode

/-- Map an alphabet character code back to its sextet. -/
def charToSextet (c : ℕ) : ℕ := b64Alphabet.indexOf c

/-- Modelled from the spec: the platform primitive `btoa` (standard base64
encoding of a byte string, with `=` padding to a multiple of 4). -/
def btoa (bytes : List ℕ) : List ℕ :=
  let s := encB64 bytes
  s.map sextetToChar ++ List.replicate ((4 - s.length % 4) % 4) padCode

/-- Modelled from the spec: the platform primitive `atob` (standard base64
decoding, padding stripped). -/
def atob (text : List ℕ) : List ℕ :=
  decB64 ((text.filter (fun c => c != padCode)).map charToSextet)

end Codec

namespace Relay

/-- WebSocket readiness states (`readyState` of the `ws` package):
`CONNECTING`, `OPEN`, `CLOSED` (the transient `CLOSING` state behaves like
`CLOSED` for every `readyState === OPEN` guard in the relay and is folded
into `closed`). -/
inductive WsState
  | connecting
  | open
  | closed
  deriving DecidableEq, Repr

/-- A message arriving on the client link. `wellFormed` records whether
`JSON.parse(data.toString())` succeeds on it; `id` distinguishes
messages. -/
structure CMsg where
  id : ℕ
  wellFormed : Bool
  deriving DecidableEq, Repr

/-- The `type` tag of an upstream message, as far as the relay inspects
it (test-token.js lines 157-184). -/
inductive UType
  | sessionCreated
  | sessionUpdated
  | errorEvent
  | otherEvent
  deriving DecidableEq, Repr

/-- A message arriving on the upstream link. `parsed = none` models data
on which `JSON.parse` throws (binary), caught at test-token.js line 185. -/
structure UMsg where
  id : ℕ
  parsed : Option UType
  deriving DecidableEq, Repr

/-- State of one proxied connection (test-token.js lines 113-227):
the two sockets, the `sessionCreated` flag, the `messageBuffer`, and
ghost logs of every `openaiWs.send` / `clientWs.send` call in order. -/
structure Conn where
  clientState : WsState
  openaiState : WsState
  sessionCreated : Bool
  messageBuffer : List CMsg
  sentToOpenai : List CMsg
  sentToClient : List UMsg
  deriving DecidableEq, Repr

/-- Connection state right after `wss.on('connection')` fires: the client
socket is open, the upstream socket is still connecting, no session, empty
buffer. -/
def initConn : Conn :=
  { clientState := .open
    openaiState := .connecting
    sessionCreated := false
    messageBuffer := []
    sentToOpenai := []
    sentToClient := [] }

/-- `clientWs.on('message')` (test-token.js lines 139-149): when the
upstream socket is open and the session is created, forward the raw data;
otherwise `JSON.parse` the data for logging (an uncaught exception — the
`.error` result — when it is not JSON) and push it onto `messageBuffer`. -/
def onClientMessage (c : Conn) (m : CMsg) : Except Unit Conn :=
  if c.openaiState = .open ∧ c.sessionCreated = true then
    .ok { c with sentToOpenai := c.sentToOpenai ++ [m] }
  else if m.wellFormed then
    .ok { c with messageBuffer := c.messageBuffer ++ [m] }
  else
    .error ()

/-- `openaiWs.on('message')` (test-token.js lines 152-190): if the client
socket is open, forward the data to the client, then try to parse it; on
`type == 'session.created'` set `sessionCreated` and drain `messageBuffer`
to the upstream socket in order (the source guards the drain with
`messageBuffer.length > 0`, which coincides with the unconditional append
since draining an empty buffer sends nothing); `session.updated`, `error`
and unparseable data are only logged. If the client socket is not open,
nothing at all happens. -/
def onOpenaiMessage (c : Conn) (u : UMsg) : Conn :=
  if c.clientState = .open then
    let c2 := { c with sentToClient := c.sentToClient ++ [u] }
    match u.parsed with
    | some .sessionCreated =>
        { c2 with
            sessionCreated := true
            sentToOpenai := c2.sentToOpenai ++ c2.messageBuffer
            messageBuffer := [] }
    | _ => c2
  else c

/-- `openaiWs.on('error')` (test-token.js lines 199-204): close the client
socket only if it is currently open. -/
def onOpenaiError (c : Conn) : Conn :=
  if c.clientState = .open then { c with clientState := .closed } else c

/-- `clientWs.on('error')` (test-token.js lines 206-211): close the
upstream socket only if it is currently open. -/
def onClientError (c : Conn) : Conn :=
  if c.openaiState = .open then { c with openaiState := .closed } else c

/-- `openaiWs.on('close')` (test-token.js lines 214-219): close the client
socket only if it is currently open. -/
def onOpenaiClose (c : Conn) : Conn :=
  if c.clientState = .open then { c with clientState := .closed } else c

/-- `clientWs.on('close')` (test-token.js lines 221-226): close the
upstream socket only if it is currently open. -/
def onClientClose (c : Conn) : Conn :=
  if c.openaiState = .open then { c with openaiState := .closed } else c

/-- Events one connection can experience. -/
inductive REvent
  | clientMsg (m : CMsg)
  | upstreamMsg (u : UMsg)
  | upstreamOpened
  | upstreamError
  | clientError
  | upstreamClosed
  | clientClosed
  deriving DecidableEq, Repr

/-- Which events can fire in a given state: messages are delivered only by
an open socket; `open` fires once on the connecting upstream socket; a
`close` event fires on a socket that is not already closed; `error` events
can fire at any time. -/
def enabled (c : Conn) : REvent → Bool
  | .clientMsg _ => c.clientState = .open
  | .upstreamMsg _ => c.openaiState = .open
  | .upstreamOpened => c.openaiState = .connecting
  | .upstreamError => true
  | .clientError => true
  | .upstreamClosed => ¬ c.openaiState = .closed
  | .clientClosed => ¬ c.clientState = .closed

/-- One event: a `close` event first records the socket's own transition
to `closed`, then runs its handler; the other events run their handlers on
the unchanged socket states. -/
def step (c : Conn) : REvent → Except Unit Conn
  | .clientMsg m => onClientMessage c m
  | .upstreamMsg u => .ok (onOpenaiMessage c u)
  | .upstreamOpened => .ok { c with openaiState := .open }
  | .upstreamError => .ok (onOpenaiError c)
  | .clientError => .ok (onClientError c)
  | .upstreamClosed => .ok (onOpenaiClose { c with openaiState := .closed })
  | .clientClosed => .ok (onClientClose { c with clientState := .closed })

/-- Run a sequence of events; stops at an uncaught handler exception. -/
def run (c : Conn) : List REvent → Except Unit Conn
  | [] => .ok c
  | e :: es =>
      match step c e with
      | .ok c2 => run c2 es
      | .error u => .error u

/-- An event sequence is admissible from `c` when every event is enabled
in the state it fires in (a trailing event may raise). -/
def validTrace (c : Conn) : List REvent → Bool
  | [] => true
  | e :: es =>
      enabled c e &&
        match step c e with
        | .ok c2 => validTrace c2 es
        | .error _ => es.isEmpty

/-- A sample well-formed (JSON-parseable) client message. -/
def msgA : CMsg := ⟨1, true⟩

/-- A second sample well-formed client message. -/
def msgB : CMsg := ⟨2, true⟩

/-- A third sample well-formed client message. -/
def msgC : CMsg := ⟨3, true⟩

/-- A sample client message on which `JSON.parse` throws. -/
def msgBad : CMsg := ⟨9, false⟩

/-- A sample upstream `session.created` message. -/
def uCreated : UMsg := ⟨10, some .sessionCreated⟩

/-- A sample upstream `session.updated` message. -/
def uUpdated : UMsg := ⟨11, some .sessionUpdated⟩

end Relay

namespace RT

/-- A tool name as it reaches `executeFunctionCall`; the three registered
tools get their own constructors, every other string is `unknownName`
(function-registry.ts lines 86-101 match on exactly these three names). -/
inductive FnName
  | getCurrentWeather
  | getCurrentTime
  | searchWikipedia
  | unknownName (code : ℕ)
  deriving DecidableEq, Repr

/-- Outcome of running one registered tool implementation (the
implementations call `fetch`, `Date`, … — outside this subsystem), as an
environment parameter: the implementation either produces a value or
throws. -/
inductive ToolOutcome
  | succeeds (payload : ℕ)
  | throws
  deriving DecidableEq, Repr

/-- One environment: the behavior each registered tool implementation
would exhibit if invoked. -/
structure ToolEnv where
  weather : ToolOutcome
  time : ToolOutcome
  wiki : ToolOutcome
  deriving DecidableEq, Repr

/-- The `argumentsJson` string handed to `executeFunctionCall`:
`wellFormed` records whether `JSON.parse` succeeds, `payload` stands for
the parsed arguments. -/
structure ArgsJson where
  wellFormed : Bool
  payload : ℕ
  deriving DecidableEq, Repr

/-- Result value of `executeFunctionCall`: either a tool value or one of
the three structured error payloads the source builds
(function-registry.ts lines 78, 100, 107). -/
inductive FnResult
  | invalidArgsError
  | unknownFnError (name : FnName)
  | execFailedError
  | value (payload : ℕ)
  deriving DecidableEq, Repr

/-- Whether a result is one of the structured `{error: ...}` payloads. -/
def FnResult.isError : FnResult → Bool
  | .value _ => false
  | _ => true

/-- `executeFunctionCall` (function-registry.ts lines 67-109): parse the
arguments (parse failure returns the `Invalid arguments format` error
payload); dispatch on the name (an unknown name returns the
`Unknown function` error payload); a throwing implementation is caught and
returns the `Function execution failed` error payload. Total: it never
propagates an exception. -/
def executeFunctionCall (env : ToolEnv) (functionName : FnName) (argumentsJson : ArgsJson) :
    FnResult :=
  if argumentsJson.wellFormed then
    match functionName with
    | .getCurrentWeather =>
        match env.weather with
        | .succeeds p => .value p
        | .throws => .execFailedError
    | .getCurrentTime =>
        match env.time with
        | .succeeds p => .value p
        | .throws => .execFailedError
    | .searchWikipedia =>
        match env.wiki with
        | .succeeds p => .value p
        | .throws => .execFailedError
    | .unknownName k => .unknownFnError (.unknownName k)
  else .invalidArgsError

/-- A message sent on the manager's WebSocket (`this.ws.send(...)` calls
in part_005), in order. -/
inductive OutMsg
  | conversationItemCreate (callId : ℕ) (output : FnResult)
  | responseCreate
  | inputAudioBufferAppend (audio : List ℕ)
  deriving DecidableEq, Repr

/-- `OpenAIManager` state as the send paths see it: `ws = none` models
`this.ws === null`, otherwise the socket's ready state; `sent` is the
ghost log of `ws.send` calls. -/
structure OpenAIManager where
  ws : Option Relay.WsState
  sent : List OutMsg
  deriving DecidableEq, Repr

/-- The guard `!this.ws || this.ws.readyState !== WebSocket.OPEN`
(part_005 lines 207 and 232), as the condition under which sending
proceeds. -/
def wsIsOpen (m : OpenAIManager) : Bool :=
  match m.ws with
  | some .open => true
  | _ => false

/-- `OpenAIManager.sendAudio` (part_005 lines 206-224): return untouched
under the guard; otherwise base64-encode the bytes and send one
`input_audio_buffer.append` message. -/
def sendAudio (m : OpenAIManager) (audioData : List ℕ) : OpenAIManager :=
  if wsIsOpen m then
    { m with sent := m.sent ++ [.inputAudioBufferAppend (Codec.btoa audioData)] }
  else m

/-- `OpenAIManager.sendFunctionResult` (part_005 lines 231-256): return
untouched under the guard; otherwise send one `conversation.item.create`
carrying the call id and the serialized result, then one
`response.create`. -/
def sendFunctionResult (m : OpenAIManager) (callId : ℕ) (result : FnResult) : OpenAIManager :=
  if wsIsOpen m then
    { m with sent := m.sent ++ [.conversationItemCreate callId result, .responseCreate] }
  else m

/-- The `functionCall` handler installed by `AudioBridge.setupBridge`
(audio-bridge.ts lines 38-52): execute the named tool through the
registry, then hand the result and the call id to `sendFunctionResult`.
(The `functionCall` event itself is emitted by `handleMessage` on a
`response.function_call_arguments.done` envelope, part_005 lines
173-181, with `callId = event.call_id`.) The handler is `async` and
awaits `executeFunctionCall` — which awaits `fetch` inside
`searchWikipedia` — before calling `sendFunctionResult`; during that
suspension the manager's `this.ws` can change: `close()` (part_005 lines
346-351) sets it to `null`, and the socket itself can leave the `OPEN`
state. `wsAfter` is the value of the `ws` field when the handler resumes
at the submission; the rest of the manager is untouched by the await. -/
def onFunctionCall (env : ToolEnv) (m : OpenAIManager) (wsAfter : Option Relay.WsState)
    (callId : ℕ) (name : FnName) (argsJson : ArgsJson) : OpenAIManager :=
  sendFunctionResult { m with ws := wsAfter } callId (executeFunctionCall env name argsJson)

end RT

namespace Player

/-- Playback state of `LivekitManager`: the pending `audioQueue`, the
`isPlaying` flag, and a ghost log `started` of the buffers passed to
`source.start()` in order. Buffers are identified by a natural number
id. -/
structure PState where
  audioQueue : List ℕ
  isPlaying : Bool
  started : List ℕ
  deriving DecidableEq, Repr

/-- Initial playback state (livekit-manager.ts lines 16-17). -/
def initPlayer : PState :=
  { audioQueue := [], isPlaying := false, started := [] }

/-- `LivekitManager.playNextInQueue` (livekit-manager.ts lines 250-268):
empty queue clears `isPlaying`; otherwise shift the head, mark playing,
and start it. -/
def playNextInQueue (p : PState) : PState :=
  match p.audioQueue with
  | [] => { p with isPlaying := false }
  | buf :: rest =>
      { p with isPlaying := true, audioQueue := rest, started := p.started ++ [buf] }

/-- The tail of `LivekitManager.playAudio` (livekit-manager.ts lines
237-241) for a successfully decoded delta: push the buffer, and start the
queue if idle. -/
def playAudio (p : PState) (buf : ℕ) : PState :=
  let p2 := { p with audioQueue := p.audioQueue ++ [buf] }
  if !p2.isPlaying then playNextInQueue p2 else p2

/-- Playback events: an audio-delta payload delivered to `playAudio`, or
a `source.onended` callback (livekit-manager.ts lines 263-265). -/
inductive PEvent
  | delta (buf : ℕ)
  | ended
  deriving DecidableEq, Repr

/-- One playback event. -/
def pstep (p : PState) : PEvent → PState
  | .delta b => playAudio p b
  | .ended => playNextInQueue p

/-- Run a sequence of playback events. -/
def prun (p : PState) : List PEvent → PState
  | [] => p
  | e :: es => prun (pstep p e) es

/-- The deltas delivered by an event sequence, in arrival order. -/
def arrivals (es : List PEvent) : List ℕ :=
  es.filterMap fun e =>
    match e with
    | .delta b => some b
    | .ended => none

end Player

namespace Codec

theorem clamp_eq_self {q : ℚ} (h1 : -1 ≤ q) (h2 : q ≤ 1) : clamp q = q := by
  unfold clamp
  rw [min_eq_right h2, max_eq_right h1]

/-- Per-sample round trip: decoding the encoding of a normalized sample
recovers it to within one quantization step. -/
theorem pcm16_sample_roundtrip (q : ℚ) (h1 : -1 ≤ q) (h2 : q ≤ 1) :
    |int16ToFloat32Sample (floatTo16BitPCMSample q) - q| ≤ quantStep q := by
  unfold floatTo16BitPCMSample quantStep
  rw [clamp_eq_self h1 h2]
  by_cases hq : q < 0
  · -- negative sample: encoder truncates `q * 32768` toward zero, i.e. takes ⌈·⌉
    have hneg : q * 32768 < 0 := by nlinarith
    simp only [if_pos hq, truncQ, if_pos hneg]
    set n : ℤ := ⌈q * 32768⌉ with hn
    have hceil_le : (q * 32768 : ℚ) ≤ (n : ℚ) := Int.le_ceil _
    have hceil_lt : ((n : ℚ)) < q * 32768 + 1 := Int.ceil_lt_add_one _
    unfold int16ToFloat32Sample
    by_cases hn0 : n < 0
    · have hn0' : ((n : ℚ)) < 0 := by exact_mod_cast hn0
      rw [if_pos hn0, abs_le]
      constructor <;> [linarith; linarith]
    · -- ⌈q * 32768⌉ = 0 here: the sample lies in (-1/32768, 0)
      have hub : (n : ℚ) ≤ 0 := by
        have : n ≤ (0 : ℤ) := Int.ceil_le.mpr (by push_cast; linarith)
        exact_mod_cast this
      have hlb : (0 : ℚ) ≤ (n : ℚ) := by exact_mod_cast not_lt.mp hn0
      have hz : (n : ℚ) = 0 := le_antisymm hub hlb
      rw [if_neg hn0, abs_le, hz]
      constructor <;> [linarith; linarith]
  · -- non-negative sample: encoder truncates `q * 32767`, i.e. takes ⌊·⌋
    have hq0 : (0 : ℚ) ≤ q := not_lt.mp hq
    have hnn : ¬ (q * 32767 < 0) := by nlinarith
    simp only [if_neg hq, truncQ, if_neg hnn]
    set n : ℤ := ⌊q * 32767⌋ with hn
    have hfloor_le : ((n : ℚ)) ≤ q * 32767 := Int.floor_le _
    have hfloor_gt : q * 32767 - 1 < (n : ℚ) := Int.sub_one_lt_floor _
    have hn0 : ¬ (n < 0) := by
      have : (0 : ℤ) ≤ n := Int.floor_nonneg.mpr (by nlinarith)
      omega
    unfold int16ToFloat32Sample
    rw [if_neg hn0, abs_le]
    constructor <;> [linarith; linarith]

theorem decB64_encB64 : ∀ l : List ℕ, (∀ x ∈ l, x < 256) → decB64 (encB64 l) = l
  | [], _ => rfl
  | [a], h => by
      have ha : a < 256 := h a (by simp)
      simp only [encB64, decB64, List.cons.injEq, and_true]
      omega
  | [a, b], h => by
      have ha : a < 256 := h a (by simp)
      have hb : b < 256 := h b (by simp)
      simp only [encB64, decB64, List.cons.injEq, and_true]
      constructor <;> omega
  | a :: b :: c :: rest, h => by
      have ha : a < 256 := h a (by simp)
      have hb : b < 256 := h b (by simp)
      have hc : c < 256 := h c (by simp)
      have ih := decB64_encB64 rest (fun x hx => h x (by simp [hx]))
      simp only [encB64, decB64, ih, List.cons.injEq]
      refine ⟨by omega, by omega, by omega, trivial⟩

theorem encB64_lt : ∀ l : List ℕ, (∀ x ∈ l, x < 256) → ∀ y ∈ encB64 l, y < 64
  | [], _ => by simp [encB64]
  | [a], h => by
      have ha : a < 256 := h a (by simp)
      simp only [encB64, List.mem_cons, List.not_mem_nil, or_false]
      rintro y (rfl | rfl) <;> omega
  | [a, b], h => by
      have ha : a < 256 := h a (by simp)
      have hb : b < 256 := h b (by simp)
      simp only [encB64, List.mem_cons, List.not_mem_nil, or_false]
      rintro y (rfl | rfl | rfl) <;> omega
  | a :: b :: c :: rest, h => by
      have ha : a < 256 := h a (by simp)
      have hb : b < 256 := h b (by simp)
      have hc : c < 256 := h c (by simp)
      have ih := encB64_lt rest (fun x hx => h x (by simp [hx]))
      simp only [encB64, List.mem_cons]
      rintro y (rfl | rfl | rfl | rfl | hy)
      · omega
      · omega
      · omega
      · omega
      · exact ih y hy

theorem charToSextet_sextetToChar_fin :
    ∀ s : Fin 64, charToSextet (sextetToChar s.val) = s.val ∧ sextetToChar s.val ≠ padCode := by
  decide

/-- Transport-text round trip: decoding the base64 encoding of any byte
buffer reconstructs it exactly. -/
theorem atob_btoa (b : List ℕ) (h : ∀ x ∈ b, x < 256) : atob (btoa b) = b := by
  have h64 := encB64_lt b h
  unfold atob btoa
  rw [List.filter_append]
  have hmap : (List.map sextetToChar (encB64 b)).filter (fun c => c != padCode)
      = List.map sextetToChar (encB64 b) := by
    rw [List.filter_eq_self]
    intro a ha
    rw [List.mem_map] at ha
    obtain ⟨s, hs, rfl⟩ := ha
    have hne := (charToSextet_sextetToChar_fin ⟨s, h64 s hs⟩).2
    simpa using hne
  have hrep : (List.replicate ((4 - (encB64 b).length % 4) % 4) padCode).filter
      (fun c => c != padCode) = [] := by
    rw [List.filter_eq_nil_iff]
    intro a ha
    have := List.eq_of_mem_replicate ha
    simp [this]
  rw [hmap, hrep, List.append_nil, List.map_map]
  have hid : ∀ s ∈ encB64 b, (charToSextet ∘ sextetToChar) s = id s := by
    intro s hs
    exact (charToSextet_sextetToChar_fin ⟨s, h64 s hs⟩).1
  rw [List.map_congr_left hid, List.map_id]
  exact decB64_encB64 b h

end Codec

namespace Relay

/-- Claim C1, as stated, is false on the code in two ways, both exhibited
on concrete admissible traces. (i) After readiness (`session.created`
processed, `sessionCreated = true`), a client-side error closes the
upstream socket; the next client message `msgB` then fails the forwarding
guard and is pushed onto `messageBuffer` — a message sent after readiness
is queued, so the queue is not "permanently abandoned". (ii) Before
readiness, a client message that is not JSON is not appended to the
buffer: the handler raises an uncaught `JSON.parse` exception instead. -/
theorem C1_counterexample :
    (validTrace initConn
        [.upstreamOpened, .clientMsg msgA, .upstreamMsg uCreated,
          .clientError, .clientMsg msgB] = true
      ∧ run initConn
          [.upstreamOpened, .clientMsg msgA, .upstreamMsg uCreated,
            .clientError, .clientMsg msgB]
        = .ok { clientState := .open, openaiState := .closed, sessionCreated := true,
                messageBuffer := [msgB], sentToOpenai := [msgA],
                sentToClient := [uCreated] })
    ∧ (validTrace initConn [.clientMsg msgBad] = true
      ∧ run initConn [.clientMsg msgBad] = .error ()) := by
  decide

/-- Claim C1 (amended): while the session is not yet created, every
JSON-parseable client message is appended to `messageBuffer` in arrival
order and nothing is forwarded; when the upstream delivers
`session.created` while the client socket is open, the buffer is drained
to the upstream link in FIFO order exactly once and cleared; a client
message sent after readiness is forwarded immediately while the upstream
socket is open, but is buffered again (not forwarded) when the upstream
socket is no longer open; in particular parseable messages `m1, m2, m3`
sent before readiness reach the upstream link as exactly `m1, m2, m3` in
that order. -/
theorem C1_buffering_amended :
    (∀ (c : Conn) (m : CMsg), c.sessionCreated = false → m.wellFormed = true →
        onClientMessage c m = .ok { c with messageBuffer := c.messageBuffer ++ [m] })
    ∧ (∀ (c : Conn) (u : UMsg), c.clientState = .open → u.parsed = some .sessionCreated →
        onOpenaiMessage c u
          = { c with sentToClient := c.sentToClient ++ [u], sessionCreated := true,
                     sentToOpenai := c.sentToOpenai ++ c.messageBuffer, messageBuffer := [] })
    ∧ (∀ (c : Conn) (m : CMsg), c.sessionCreated = true → c.openaiState = .open →
        onClientMessage c m = .ok { c with sentToOpenai := c.sentToOpenai ++ [m] })
    ∧ (∀ (c : Conn) (m : CMsg), c.sessionCreated = true → ¬ c.openaiState = .open →
        m.wellFormed = true →
        onClientMessage c m = .ok { c with messageBuffer := c.messageBuffer ++ [m] })
    ∧ (∀ m1 m2 m3 : CMsg, m1.wellFormed = true → m2.wellFormed = true →
        m3.wellFormed = true →
        run initConn [.clientMsg m1, .clientMsg m2, .clientMsg m3, .upstreamOpened,
            .upstreamMsg uCreated]
          = .ok { clientState := .open, openaiState := .open, sessionCreated := true,
                  messageBuffer := [], sentToOpenai := [m1, m2, m3],
                  sentToClient := [uCreated] }) := by
  refine ⟨?_, ?_, ?_, ?_, ?_⟩
  · intro c m h1 h2
    simp [onClientMessage, h1, h2]
  · intro c u h hu
    simp [onOpenaiMessage, h, hu]
  · intro c m h1 h2
    simp [onClientMessage, h1, h2]
  · intro c m h1 h2 h3
    simp [onClientMessage, h1, h2, h3]
  · intro m1 m2 m3 h1 h2 h3
    simp [run, step, onClientMessage, onOpenaiMessage, initConn, uCreated, h1, h2, h3]

/-- Concrete instantiation of each part of `C1_buffering_amended`. -/
theorem C1_witness :
    onClientMessage initConn msgA
        = .ok { initConn with messageBuffer := initConn.messageBuffer ++ [msgA] }
    ∧ onOpenaiMessage { initConn with openaiState := .open, messageBuffer := [msgA] } uCreated
        = { initConn with openaiState := .open, sentToClient := [uCreated],
                          sessionCreated := true, sentToOpenai := [msgA], messageBuffer := [] }
    ∧ onClientMessage
          { initConn with openaiState := .open, sessionCreated := true } msgB
        = .ok { initConn with openaiState := .open, sessionCreated := true,
                              sentToOpenai := [msgB] }
    ∧ onClientMessage
          { initConn with openaiState := .closed, sessionCreated := true } msgB
        = .ok { initConn with openaiState := .closed, sessionCreated := true,
                              messageBuffer := [msgB] }
    ∧ run initConn [.clientMsg msgA, .clientMsg msgB, .clientMsg msgC, .upstreamOpened,
          .upstreamMsg uCreated]
        = .ok { clientState := .open, openaiState := .open, sessionCreated := true,
                messageBuffer := [], sentToOpenai := [msgA, msgB, msgC],
                sentToClient := [uCreated] } :=
  ⟨C1_buffering_amended.1 initConn msgA rfl rfl,
   C1_buffering_amended.2.1 { initConn with openaiState := .open, messageBuffer := [msgA] }
     uCreated rfl rfl,
   C1_buffering_amended.2.2.1 { initConn with openaiState := .open, sessionCreated := true }
     msgB rfl rfl,
   C1_buffering_amended.2.2.2.1 { initConn with openaiState := .closed, sessionCreated := true }
     msgB rfl (by decide) rfl,
   C1_buffering_amended.2.2.2.2 msgA msgB msgC rfl rfl rfl⟩

/-- Claim C4, as stated, is false on the code: here the client link
closes while the upstream socket is still connecting; the teardown is
guarded by `openaiWs.readyState === WebSocket.OPEN`, so it does nothing,
and when the upstream connection then completes it stays open — a
half-open connection (client side closed, upstream side open). -/
theorem C4_counterexample :
    validTrace initConn [.clientClosed, .upstreamOpened] = true
    ∧ run initConn [.clientClosed, .upstreamOpened]
        = .ok { initConn with clientState := .closed, openaiState := .open } := by
  decide

/-- Claim C4 (amended): when either link closes or errors, the other link
of the same connection is closed in the same teardown provided it is
currently open; a surviving link that is not open (in particular one that
has not finished connecting) is left untouched. -/
theorem C4_close_propagation_amended (c : Conn) :
    (c.openaiState = .open →
        (onClientClose c).openaiState = .closed ∧ (onClientError c).openaiState = .closed)
    ∧ (c.clientState = .open →
        (onOpenaiClose c).clientState = .closed ∧ (onOpenaiError c).clientState = .closed)
    ∧ (¬ c.openaiState = .open → onClientClose c = c ∧ onClientError c = c)
    ∧ (¬ c.clientState = .open → onOpenaiClose c = c ∧ onOpenaiError c = c) := by
  refine ⟨?_, ?_, ?_, ?_⟩ <;> intro h <;>
    simp [onClientClose, onClientError, onOpenaiClose, onOpenaiError, h]

/-- Concrete instantiation of each part of `C4_close_propagation_amended`. -/
theorem C4_witness :
    ((onClientClose { initConn with openaiState := .open }).openaiState = .closed
      ∧ (onClientError { initConn with openaiState := .open }).openaiState = .closed)
    ∧ ((onOpenaiClose initConn).clientState = .closed
      ∧ (onOpenaiError initConn).clientState = .closed)
    ∧ (onClientClose initConn = initConn ∧ onClientError initConn = initConn)
    ∧ (onOpenaiClose { initConn with clientState := .closed }
          = { initConn with clientState := .closed }
      ∧ onOpenaiError { initConn with clientState := .closed }
          = { initConn with clientState := .closed }) :=
  ⟨(C4_close_propagation_amended { initConn with openaiState := .open }).1 rfl,
   (C4_close_propagation_amended initConn).2.1 rfl,
   (C4_close_propagation_amended initConn).2.2.1 (by decide),
   (C4_close_propagation_amended { initConn with clientState := .closed }).2.2.2 (by decide)⟩

/-- Claim C5, as stated, is false on the code: a client message on which
`JSON.parse` fails is (i) forwarded verbatim to the upstream link — not
dropped — when the upstream socket is open and the session is created
(the ready path never parses), and (ii) before readiness it raises an
uncaught exception in the message handler. -/
theorem C5_counterexample :
    (validTrace initConn [.upstreamOpened, .upstreamMsg uCreated, .clientMsg msgBad] = true
      ∧ run initConn [.upstreamOpened, .upstreamMsg uCreated, .clientMsg msgBad]
          = .ok { clientState := .open, openaiState := .open, sessionCreated := true,
                  messageBuffer := [], sentToOpenai := [msgBad],
                  sentToClient := [uCreated] })
    ∧ run initConn [.clientMsg msgBad] = .error () := by
  decide

/-- Claim C5 (amended): a client message that cannot be parsed as JSON is
forwarded verbatim upstream when the upstream socket is open and the
session is created; in every other state the handler's `JSON.parse`
raises an uncaught exception and the message is neither forwarded nor
buffered. -/
theorem C5_malformed_amended (c : Conn) (m : CMsg) (hm : m.wellFormed = false) :
    (c.openaiState = .open ∧ c.sessionCreated = true →
        onClientMessage c m = .ok { c with sentToOpenai := c.sentToOpenai ++ [m] })
    ∧ (¬ (c.openaiState = .open ∧ c.sessionCreated = true) →
        onClientMessage c m = .error ()) := by
  constructor <;> intro h <;> simp [onClientMessage, h, hm]

/-- Concrete instantiation of both parts of `C5_malformed_amended`. -/
theorem C5_witness :
    onClientMessage { initConn with openaiState := .open, sessionCreated := true } msgBad
        = .ok { initConn with openaiState := .open, sessionCreated := true,
                              sentToOpenai := [msgBad] }
    ∧ onClientMessage initConn msgBad = .error () :=
  ⟨(C5_malformed_amended { initConn with openaiState := .open, sessionCreated := true }
      msgBad rfl).1 (by decide),
   (C5_malformed_amended initConn msgBad rfl).2 (by decide)⟩

/-- Claim C6, as stated, is false on the code: on this admissible trace
the upstream socket has closed (after a client-side error) while the
client socket is still open; the next client message `msgA` is not a
silent no-op — it is appended to `messageBuffer`, changing the
connection's state and retaining the message. -/
theorem C6_counterexample :
    validTrace initConn
        [.upstreamOpened, .upstreamMsg uCreated, .clientError, .clientMsg msgA] = true
    ∧ run initConn [.upstreamOpened, .upstreamMsg uCreated, .clientError, .clientMsg msgA]
        = .ok { clientState := .open, openaiState := .closed, sessionCreated := true,
                messageBuffer := [msgA], sentToOpenai := [], sentToClient := [uCreated] } := by
  decide

/-- Claim C6 (amended): a client-message forward call on a connection
whose upstream socket is closed forwards nothing, and for a JSON-parseable
message raises no exception — but the message is appended to
`messageBuffer` (retained), not discarded; for an unparseable message the
handler raises an uncaught exception. -/
theorem C6_premature_send_amended (c : Conn) (m : CMsg) (h : c.openaiState = .closed) :
    (m.wellFormed = true →
        onClientMessage c m = .ok { c with messageBuffer := c.messageBuffer ++ [m] })
    ∧ (m.wellFormed = false → onClientMessage c m = .error ()) := by
  constructor <;> intro hm <;> simp [onClientMessage, h, hm]

/-- Concrete instantiation of both parts of `C6_premature_send_amended`. -/
theorem C6_witness :
    onClientMessage { initConn with openaiState := .closed } msgA
        = .ok { initConn with openaiState := .closed, messageBuffer := [msgA] }
    ∧ onClientMessage { initConn with openaiState := .closed } msgBad = .error () :=
  ⟨(C6_premature_send_amended { initConn with openaiState := .closed } msgA rfl).1 rfl,
   (C6_premature_send_amended { initConn with openaiState := .closed } msgBad rfl).2 rfl⟩

/-- Claim C7, as stated, is false on the code: on this admissible trace a
`session.updated` message arrives with one message buffered; the relay
only logs it — `sessionCreated` stays `false` and `messageBuffer` is not
flushed (the claim predicts readiness `true` and an empty buffer). Only
`session.created` triggers readiness and the flush. -/
theorem C7_counterexample :
    validTrace initConn [.upstreamOpened, .clientMsg msgA, .upstreamMsg uUpdated] = true
    ∧ run initConn [.upstreamOpened, .clientMsg msgA, .upstreamMsg uUpdated]
        = .ok { clientState := .open, openaiState := .open, sessionCreated := false,
                messageBuffer := [msgA], sentToOpenai := [], sentToClient := [uUpdated] } := by
  decide

/-- Claim C7 (amended): for a connection whose client socket is open,
an upstream `session.created` message sets the readiness flag and flushes
`messageBuffer` in order to the upstream link, while an upstream
`session.updated` message is only forwarded to the client — it changes
neither the readiness flag nor the buffer. -/
theorem C7_session_events_amended (c : Conn) (u : UMsg) (h : c.clientState = .open) :
    (u.parsed = some .sessionCreated →
        onOpenaiMessage c u
          = { c with sentToClient := c.sentToClient ++ [u], sessionCreated := true,
                     sentToOpenai := c.sentToOpenai ++ c.messageBuffer, messageBuffer := [] })
    ∧ (u.parsed = some .sessionUpdated →
        onOpenaiMessage c u = { c with sentToClient := c.sentToClient ++ [u] }) := by
  constructor <;> intro hu <;> simp [onOpenaiMessage, h, hu]

/-- Concrete instantiation of both parts of `C7_session_events_amended`. -/
theorem C7_witness :
    onOpenaiMessage { initConn with openaiState := .open, messageBuffer := [msgA] } uCreated
        = { initConn with openaiState := .open, sentToClient := [uCreated],
                          sessionCreated := true, sentToOpenai := [msgA], messageBuffer := [] }
    ∧ onOpenaiMessage { initConn with openaiState := .open, messageBuffer := [msgA] } uUpdated
        = { initConn with openaiState := .open, messageBuffer := [msgA],
                          sentToClient := [uUpdated] } :=
  ⟨(C7_session_events_amended { initConn with openaiState := .open, messageBuffer := [msgA] }
      uCreated rfl).1 rfl,
   (C7_session_events_amended { initConn with openaiState := .open, messageBuffer := [msgA] }
      uUpdated rfl).2 rfl⟩

end Relay

namespace RT

/-- Claim C2, as stated, is false on the code: the bridge's `functionCall`
handler awaits the tool execution (`fetch` inside `searchWikipedia`)
before submitting. When `close()` nulls `this.ws` during that await (the
disconnect and error paths of the application entry point call it), or
the socket leaves the `OPEN` state, `sendFunctionResult` hits its guard
(part_005 lines 232-234) and returns with no submission at all: the
received `response.function_call_arguments.done` event produces neither a
`conversation.item.create` nor a `response.create` — a missing
submission, which the claim says never happens. -/
theorem C2_counterexample :
    onFunctionCall ⟨.succeeds 0, .succeeds 0, .succeeds 0⟩ ⟨some .open, []⟩ none 7
        .searchWikipedia ⟨true, 0⟩
      = ({ ws := none, sent := [] } : OpenAIManager)
    ∧ onFunctionCall ⟨.succeeds 0, .succeeds 0, .succeeds 0⟩ ⟨some .open, []⟩ (some .closed) 7
        .searchWikipedia ⟨true, 0⟩
      = ({ ws := some .closed, sent := [] } : OpenAIManager) := by
  decide

/-- Claim C2 (amended): for every received
`response.function_call_arguments.done` event carrying `call_id X`, if
the manager's socket is still non-null and `OPEN` when the awaited tool
execution finishes, exactly one `conversation.item.create` referencing
`X` is sent, followed immediately by exactly one `response.create` —
including when the arguments fail to parse, the tool name is unknown, or
the tool implementation throws, in which case the submitted output is the
corresponding structured error payload (`executeFunctionCall` is total —
no exception escapes). If the socket has been nulled or has left the
`OPEN` state during the await, nothing at all is sent and nothing is
thrown: the submission is silently skipped. -/
theorem C2_function_call_completion (env : ToolEnv) (m : OpenAIManager)
    (wsAfter : Option Relay.WsState) (callId : ℕ) (name : FnName) (args : ArgsJson) :
    (wsIsOpen { m with ws := wsAfter } = true →
        (onFunctionCall env m wsAfter callId name args).sent
          = m.sent ++ [.conversationItemCreate callId (executeFunctionCall env name args),
                       .responseCreate])
    ∧ (wsIsOpen { m with ws := wsAfter } = false →
        onFunctionCall env m wsAfter callId name args = { m with ws := wsAfter })
    ∧ (args.wellFormed = false →
        executeFunctionCall env name args = .invalidArgsError
          ∧ (executeFunctionCall env name args).isError = true)
    ∧ (∀ k, name = .unknownName k → args.wellFormed = true →
        executeFunctionCall env name args = .unknownFnError (.unknownName k)
          ∧ (executeFunctionCall env name args).isError = true)
    ∧ (name = .getCurrentWeather → env.weather = .throws → args.wellFormed = true →
        executeFunctionCall env name args = .execFailedError
          ∧ (executeFunctionCall env name args).isError = true) := by
  refine ⟨?_, ?_, ?_, ?_, ?_⟩
  · intro h
    simp [onFunctionCall, sendFunctionResult, h]
  · intro h
    simp [onFunctionCall, sendFunctionResult, h]
  · intro ha
    simp [executeFunctionCall, ha, FnResult.isError]
  · rintro k rfl ha
    simp [executeFunctionCall, ha, FnResult.isError]
  · rintro rfl hw ha
    simp [executeFunctionCall, ha, hw, FnResult.isError]

/-- Concrete instantiation of `C2_function_call_completion`: with the
socket still open after the await, a throwing weather implementation
still produces exactly the `conversation.item.create` / `response.create`
pair carrying the structured execution-failure payload; with the socket
nulled during the await, the handler returns with nothing sent. -/
theorem C2_witness :
    (onFunctionCall ⟨.throws, .succeeds 0, .succeeds 0⟩ ⟨some .open, []⟩ (some .open) 7
        .getCurrentWeather ⟨true, 0⟩).sent
      = [.conversationItemCreate 7
            (executeFunctionCall ⟨.throws, .succeeds 0, .succeeds 0⟩
              .getCurrentWeather ⟨true, 0⟩),
         .responseCreate]
    ∧ onFunctionCall ⟨.throws, .succeeds 0, .succeeds 0⟩ ⟨some .open, []⟩ none 7
        .getCurrentWeather ⟨true, 0⟩
      = ({ ws := none, sent := [] } : OpenAIManager)
    ∧ executeFunctionCall ⟨.throws, .succeeds 0, .succeeds 0⟩ .getCurrentWeather ⟨true, 0⟩
        = .execFailedError :=
  ⟨(C2_function_call_completion ⟨.throws, .succeeds 0, .succeeds 0⟩ ⟨some .open, []⟩
      (some .open) 7 .getCurrentWeather ⟨true, 0⟩).1 rfl,
   (C2_function_call_completion ⟨.throws, .succeeds 0, .succeeds 0⟩ ⟨some .open, []⟩
      none 7 .getCurrentWeather ⟨true, 0⟩).2.1 rfl,
   ((C2_function_call_completion ⟨.throws, .succeeds 0, .succeeds 0⟩ ⟨some .open, []⟩
      (some .open) 7 .getCurrentWeather ⟨true, 0⟩).2.2.2.2 rfl rfl rfl).1⟩

/-- Claim C10: `sendAudio` and `sendFunctionResult` on a manager whose
socket is `null` or not `OPEN` return with the manager unchanged — no
message is sent, nothing is thrown, nothing is retained. -/
theorem C10_send_guard (m : OpenAIManager) (audioData : List ℕ) (callId : ℕ)
    (result : FnResult) (h : wsIsOpen m = false) :
    sendAudio m audioData = m ∧ sendFunctionResult m callId result = m := by
  constructor <;> simp [sendAudio, sendFunctionResult, h]

/-- Concrete instantiation of `C10_send_guard`: a null socket and a closed
socket both make the send paths no-ops. -/
theorem C10_witness :
    sendAudio ⟨none, []⟩ [1, 2] = (⟨none, []⟩ : OpenAIManager)
    ∧ sendFunctionResult ⟨some .closed, []⟩ 5 .execFailedError
        = (⟨some .closed, []⟩ : OpenAIManager) :=
  ⟨(C10_send_guard ⟨none, []⟩ [1, 2] 5 .execFailedError rfl).1,
   (C10_send_guard ⟨some .closed, []⟩ [1, 2] 5 .execFailedError rfl).2⟩

end RT

namespace Player

/-- One playback event preserves the playback invariant: the started log
followed by the queue equals their old value followed by whatever delta
the event delivered. -/
theorem pstep_inv (p : PState) (e : PEvent) :
    (pstep p e).started ++ (pstep p e).audioQueue
      = p.started ++ p.audioQueue ++ arrivals [e] := by
  cases e with
  | delta b =>
    simp only [pstep, playAudio, arrivals, List.filterMap_cons, List.filterMap_nil]
    by_cases hp : p.isPlaying
    · simp [hp]
    · cases hq : p.audioQueue <;> simp [playNextInQueue, hp, hq]
  | ended =>
    cases hq : p.audioQueue <;>
      simp [pstep, playNextInQueue, hq, arrivals]

/-- Claim C9: playback is an ordered queue. For every event sequence, the
buffers passed to `source.start()` followed by the still-queued buffers
are exactly the delivered deltas in arrival order — so no delta is
skipped, replayed, or reordered, and every started buffer sequence is a
prefix of the arrival sequence. In particular deltas `d1, d2, d3` are
enqueued tail-first and started head-first in exactly that order. -/
theorem C9_playback_ordering :
    (∀ (es : List PEvent) (p : PState),
        (prun p es).started ++ (prun p es).audioQueue
          = p.started ++ p.audioQueue ++ arrivals es)
    ∧ (∀ d1 d2 d3 : ℕ,
        (prun initPlayer [.delta d1, .delta d2, .delta d3, .ended, .ended]).started
            = [d1, d2, d3]
        ∧ (prun initPlayer [.delta d1, .delta d2, .delta d3]).started = [d1]
        ∧ (prun initPlayer [.delta d1, .delta d2, .delta d3]).audioQueue = [d2, d3]) := by
  constructor
  · intro es
    induction es with
    | nil => intro p; simp [prun, arrivals]
    | cons e rest ih =>
      intro p
      show (prun (pstep p e) rest).started ++ (prun (pstep p e) rest).audioQueue = _
      rw [ih (pstep p e), pstep_inv p e]
      cases e <;> simp [arrivals, List.filterMap_cons, List.append_assoc]
  · intro d1 d2 d3
    refine ⟨rfl, rfl, rfl⟩

end Player

namespace Codec

/-- Claim C3, as stated over every sample, is false: the encoder clamps
to `[-1, 1]`, so the out-of-range sample `2` decodes to `1`, an error of
`1` — far beyond the claimed quantization step `1/32767`. -/
theorem C3_counterexample :
    int16ToFloat32 (floatTo16BitPCM [2]) = [1]
    ∧ ¬ List.Forall₂ (fun a b => |b - a| ≤ quantStep a) [(2 : ℚ)]
        (int16ToFloat32 (floatTo16BitPCM [2])) := by
  have h1 : int16ToFloat32 (floatTo16BitPCM [2]) = [1] := by
    norm_num [int16ToFloat32, floatTo16BitPCM, floatTo16BitPCMSample,
      int16ToFloat32Sample, clamp, truncQ]
  refine ⟨h1, ?_⟩
  rw [h1]
  intro hcon
  rcases hcon with _ | ⟨hrel, _⟩
  rw [quantStep] at hrel
  norm_num at hrel

/-- Claim C3 (amended): for every sequence of samples in the declared
domain `[-1, 1]`, decoding the PCM16 encoding reconstructs each sample to
within one quantization step — `1/32767` for non-negative samples,
`1/32768` for negative ones. -/
theorem C3_pcm16_roundtrip_amended (l : List ℚ) (h : ∀ q ∈ l, -1 ≤ q ∧ q ≤ 1) :
    List.Forall₂ (fun a b => |b - a| ≤ quantStep a) l (int16ToFloat32 (floatTo16BitPCM l)) := by
  induction l with
  | nil => exact List.Forall₂.nil
  | cons q rest ih =>
    have hq := h q (by simp)
    simp only [int16ToFloat32, floatTo16BitPCM, List.map_cons]
    refine List.Forall₂.cons (pcm16_sample_roundtrip q hq.1 hq.2) ?_
    have := ih (fun x hx => h x (by simp [hx]))
    simpa [int16ToFloat32, floatTo16BitPCM] using this

/-- Concrete instantiation of `C3_pcm16_roundtrip_amended` on a mixed
sample sequence. -/
theorem C3_witness :
    List.Forall₂ (fun a b => |b - a| ≤ quantStep a)
      [(1 : ℚ) / 2, -(1 / 3), 1, -1, 0]
      (int16ToFloat32 (floatTo16BitPCM [(1 : ℚ) / 2, -(1 / 3), 1, -1, 0])) :=
  C3_pcm16_roundtrip_amended [(1 : ℚ) / 2, -(1 / 3), 1, -1, 0]
    (by intro q hq; fin_cases hq <;> norm_num)

/-- Claim C8: decoding the transport-text (base64) encoding of any byte
buffer reconstructs it exactly, byte for byte. -/
theorem C8_base64_roundtrip (b : List ℕ) (h : ∀ x ∈ b, x < 256) : atob (btoa b) = b :=
  atob_btoa b h

/-- Concrete instantiation of `C8_base64_roundtrip` on a buffer exercising
a non-trivial padding tail. -/
theorem C8_witness :
    atob (btoa [77, 97, 110, 1, 255, 0, 128, 42]) = [77, 97, 110, 1, 255, 0, 128, 42] :=
  C8_base64_roundtrip [77, 97, 110, 1, 255, 0, 128, 42] (by decide)

end Codec
